import Mathlib

/-!
Verification development for the EventHub single-page application
(source: JS/api.js, containing the ApiService, Router and AuthManager
classes). The definitions below are shallow embeddings of the
corresponding JavaScript functions; theorems settle the spec claims.
-/

namespace EventHub

/-! ### Users and sessions (AuthManager data model)

A session user holds exactly the six fields copied out of the stored
user record at login (AuthManager.login, lines 701-712 of api.js):
id, username, email, firstName, lastName, role. There is no password
field in this record, by construction. -/

structure SessionUser where
  id : Nat
  username : String
  email : String
  firstName : String
  lastName : String
  role : String
deriving DecidableEq

/-- Session record persisted under the localStorage key eventhub_session.
Timestamps (ISO 8601 strings in the source, compared through Date) are
modelled as integer epoch milliseconds, which preserves their order. -/
structure Session where
  user : SessionUser
  loginTime : Int
  expiresAt : Int
deriving DecidableEq

/-! ### Router: pattern compilation (Router.addRoute)

addRoute compiles a path into an anchored regular expression by
replacing each group of the form colon-name (one or more characters
other than a slash after the colon) with a single-segment capture
group, and each asterisk with a match-anything wildcard. We embed the
compiled regex as a token list: a literal character, a one-or-more
non-slash capture group, or a wildcard. -/

inductive RTok where
  | lit (c : Char)
  | capture
  | wild
deriving DecidableEq

/-- Fuel-indexed scanner producing the compiled token list. The fuel is
the length of the input, which each step strictly consumes, so the fuel
never runs out; it only makes the recursion structural. A colon starts a
capture group exactly when at least one non-slash character follows,
mirroring the one-or-more quantifier in the source regex. -/
def compileTokensF : Nat → List Char → List RTok
  | 0, _ => []
  | _, [] => []
  | fuel + 1, c :: rest =>
    if c = ':' ∧ rest.takeWhile (fun d => d != '/') ≠ [] then
      RTok.capture :: compileTokensF fuel (rest.dropWhile (fun d => d != '/'))
    else if c = '*' then
      RTok.wild :: compileTokensF fuel rest
    else
      RTok.lit c :: compileTokensF fuel rest

def compileTokens (l : List Char) : List RTok :=
  compileTokensF l.length l

/-- Ordered parameter names, as pushed by the replacement callback in
addRoute (the name is the maximal non-slash run after the colon). -/
def compileParamsF : Nat → List Char → List String
  | 0, _ => []
  | _, [] => []
  | fuel + 1, c :: rest =>
    if c = ':' ∧ rest.takeWhile (fun d => d != '/') ≠ [] then
      String.mk (rest.takeWhile (fun d => d != '/')) ::
        compileParamsF fuel (rest.dropWhile (fun d => d != '/'))
    else
      compileParamsF fuel rest

def compileParams (l : List Char) : List String :=
  compileParamsF l.length l

/-! ### Router: regex matching

rmatch runs the anchored compiled pattern against a path, returning the
list of captured groups in positional order on success. Capture groups
and wildcards are greedy with backtracking, as in JavaScript regular
expressions: the longest candidate consumption is tried first, falling
back to shorter ones. A capture group consumes at least one non-slash
character; a wildcard consumes any characters including none. -/

def capSplit (next : List Char → Option (List (List Char))) (cs : List Char) :
    Nat → Option (List (List Char))
  | 0 => none
  | j + 1 =>
    match next (cs.drop (j + 1)) with
    | some gs => some (cs.take (j + 1) :: gs)
    | none => capSplit next cs j

def wildSplit (next : List Char → Option (List (List Char))) (cs : List Char) :
    Nat → Option (List (List Char))
  | 0 => next cs
  | j + 1 =>
    match next (cs.drop (j + 1)) with
    | some gs => some gs
    | none => wildSplit next cs j

def rmatch : List RTok → List Char → Option (List (List Char))
  | [], [] => some []
  | [], _ :: _ => none
  | RTok.lit _ :: _, [] => none
  | RTok.lit c :: ts, d :: cs => if c = d then rmatch ts cs else none
  | RTok.capture :: ts, cs =>
    capSplit (fun l => rmatch ts l) cs (cs.takeWhile (fun d => d != '/')).length
  | RTok.wild :: ts, cs => wildSplit (fun l => rmatch ts l) cs cs.length

/-! ### Router: routes and dispatch -/

/-- A registered route, as stored by Router.addRoute in the routes Map.
The handler function itself is not part of the state we reason about;
whether and how it is invoked is recorded in the dispatch result. -/
structure Route where
  pattern : List RTok
  paramNames : List String
  requiresAuth : Bool
  requiredRole : Option String
  originalPath : String
deriving DecidableEq

def compileRoute (path : String) (requiresAuth : Bool) (requiredRole : Option String) :
    Route :=
  ⟨compileTokens path.toList, compileParams path.toList, requiresAuth, requiredRole, path⟩

/-- The routes Map, in insertion order. Setting an existing key replaces
the stored value in place (JavaScript Map.set semantics); a new key is
appended. -/
def mapSet (m : List (String × Route)) (k : String) (v : Route) :
    List (String × Route) :=
  if m.any (fun p => p.1 == k) then
    m.map (fun p => if p.1 == k then (k, v) else p)
  else
    m ++ [(k, v)]

def addRoute (m : List (String × Route)) (path : String) (requiresAuth : Bool)
    (requiredRole : Option String) : List (String × Route) :=
  mapSet m path (compileRoute path requiresAuth requiredRole)

/-- Map.get by key, used by handleRoute to fetch the wildcard entry. -/
def lookupRoute (m : List (String × Route)) (k : String) : Option Route :=
  (m.find? (fun p => p.1 == k)).map (fun p => p.2)

/-- Router.findMatchingRoute: iterate the routes in insertion order,
skip the entry whose key is the asterisk string, return the first route
whose pattern matches the path. -/
def findMatchingRoute : List (String × Route) → String → Option Route
  | [], _ => none
  | (k, r) :: rest, path =>
    if k = ("*") then findMatchingRoute rest path
    else if (rmatch r.pattern path.toList).isSome then some r
    else findMatchingRoute rest path

/-- Router.extractParams: re-run the regex match and zip the stored
parameter names against the captured groups by position. -/
def extractParams (path : String) (r : Route) : List (String × String) :=
  match rmatch r.pattern path.toList with
  | some groups => r.paramNames.zip (groups.map String.mk)
  | none => []

/-- Router.isAuthenticated: the current user of the auth manager is not
null. -/
def isAuthenticated (user : Option SessionUser) : Bool :=
  user.isSome

/-- Router.hasRequiredRole: there is a current user and its role equals
the required role. -/
def hasRequiredRole (user : Option SessionUser) (r : String) : Bool :=
  match user with
  | none => false
  | some u => u.role == r

/-- The role guard condition in handleRoute reads
route.requiredRole AND NOT hasRequiredRole(route.requiredRole);
a null requiredRole is falsy and so is the empty string. -/
def roleGateFails (user : Option SessionUser) (rr : Option String) : Bool :=
  match rr with
  | none => false
  | some r => if r = ("") then false else !(hasRequiredRole user r)

/-- Observable outcome of one Router.handleRoute dispatch. invoked
means the matched route handler ran with the given params; redirected
means navigate was called with the given path and the handler did not
run; accessDenied means the 403 view was rendered with no navigation and
no handler call; wildcardInvoked means no route matched and the handler
stored under the asterisk key ran; noOp means no route matched and no
wildcard entry exists. -/
inductive DispatchResult where
  | invoked (params : List (String × String))
  | redirected (path : String)
  | accessDenied
  | wildcardInvoked
  | noOp
deriving DecidableEq

/-- Router.handleRoute for a given path and current auth state. -/
def handleRoute (routes : List (String × Route)) (path : String)
    (user : Option SessionUser) : DispatchResult :=
  match findMatchingRoute routes path with
  | none =>
    match lookupRoute routes ("*") with
    | some _ => DispatchResult.wildcardInvoked
    | none => DispatchResult.noOp
  | some route =>
    if route.requiresAuth && !(isAuthenticated user) then
      DispatchResult.redirected ("/login")
    else if roleGateFails user route.requiredRole then
      DispatchResult.accessDenied
    else
      DispatchResult.invoked (extractParams path route)

/-! ### ApiService: server data model

The mock REST layer stores collections of events and registrations.
Only the fields the registration flows read or write are modelled;
an event also carries its capacity and running registeredCount, both
JavaScript numbers used as integers here. -/

structure REvent where
  id : Nat
  title : String
  capacity : Int
  registeredCount : Int
  status : String
deriving DecidableEq

structure RRegistration where
  id : Nat
  userId : Nat
  eventId : Nat
  registeredAt : String
  status : String
deriving DecidableEq

/-- The JSON-backed store the ApiService talks to over HTTP. -/
structure DB where
  events : List REvent
  registrations : List RRegistration
deriving DecidableEq

/-- GET on the registrations collection filtered by userId and eventId
(the query-string filter of the mock store). -/
def regsFor (db : DB) (userId eventId : Nat) : List RRegistration :=
  db.registrations.filter (fun r => r.userId == userId && r.eventId == eventId)

def getEventFailMsg (i : Nat) : String :=
  ("Failed to GET /events/") ++ toString i ++ (": API Error: 404 Not Found")

def patchEventFailMsg (i : Nat) : String :=
  ("Failed to PATCH /events/") ++ toString i ++ (": API Error: 404 Not Found")

/-- ApiService.getEvent: GET /events/:id, throwing a wrapped 404 error
when no event has the id. -/
def getEventIn (db : DB) (i : Nat) : Except String REvent :=
  match db.events.find? (fun e => e.id == i) with
  | some e => Except.ok e
  | none => Except.error (getEventFailMsg i)

/-- The event record reachable at GET /events/:id, if any, projected to
its registeredCount. -/
def eventCount (db : DB) (i : Nat) : Option Int :=
  (db.events.find? (fun e => e.id == i)).map (fun e => e.registeredCount)

/-- The write performed by PATCH /events/:id with a registeredCount
payload. -/
def patchEventCount (db : DB) (i : Nat) (c : Int) : DB :=
  ⟨db.events.map (fun e => if e.id == i then
      ⟨e.id, e.title, e.capacity, c, e.status⟩ else e),
    db.registrations⟩

/-- ApiService.updateEvent restricted to a registeredCount payload:
PATCH /events/:id, a wrapped 404 error when the event does not exist. -/
def updateEvent (db : DB) (i : Nat) (c : Int) : Except String DB :=
  if (db.events.find? (fun e => e.id == i)).isSome then
    Except.ok (patchEventCount db i c)
  else
    Except.error (patchEventFailMsg i)

/-- ApiService.registerForEvent under sequential execution. Performs, in
order: the duplicate-registration query, the capacity read, the POST of
the new registration row, and the PATCH of the incremented count. An
error result models a thrown exception; every throw in the source
happens before the first write, except the PATCH branch, which cannot
fail here because the POST leaves the events collection unchanged. -/
def registerForEvent (db : DB) (userId eventId : Nat) (newRegId : Nat)
    (now : String) : Except String (DB × RRegistration) :=
  let existing := regsFor db userId eventId
  if existing.length > 0 then
    Except.error ("User is already registered for this event")
  else
    match getEventIn db eventId with
    | Except.error e => Except.error e
    | Except.ok event =>
      if event.registeredCount ≥ event.capacity then
        Except.error ("Event is full")
      else
        let registration : RRegistration :=
          ⟨newRegId, userId, eventId, now, ("confirmed")⟩
        let db1 : DB := ⟨db.events, db.registrations ++ [registration]⟩
        match updateEvent db1 eventId (event.registeredCount + 1) with
        | Except.error e => Except.error e
        | Except.ok db2 => Except.ok (db2, registration)

/-- ApiService.cancelRegistration under sequential execution: query the
matching registrations, take the first, DELETE it by id, re-read the
event, PATCH the count to max(0, count - 1). -/
def cancelRegistration (db : DB) (userId eventId : Nat) : Except String DB :=
  match regsFor db userId eventId with
  | [] => Except.error ("Registration not found")
  | registration :: _ =>
    let db1 : DB :=
      ⟨db.events, db.registrations.filter (fun r => !(r.id == registration.id))⟩
    match getEventIn db1 eventId with
    | Except.error e => Except.error e
    | Except.ok event =>
      match updateEvent db1 eventId (max 0 (event.registeredCount - 1)) with
      | Except.error e => Except.error e
      | Except.ok db2 => Except.ok db2

/-! ### AuthManager: session validation, init, login -/

/-- Outcome of the fetch of /users/:id during session validation: the
request resolves with an ok status, resolves with a non-ok status (the
user id no longer exists), or rejects (network error). -/
inductive NetResult where
  | ok
  | notOk
  | netError
deriving DecidableEq

/-- AuthManager.validateSession: false when the session is expired
(strictly past expiresAt); otherwise true exactly when the user fetch
resolves ok, and also true when the fetch throws, by the catch branch
that keeps users logged in on network errors. -/
def validateSession (s : Session) (now : Int) (net : NetResult) : Bool :=
  if s.expiresAt < now then false
  else
    match net with
    | NetResult.ok => true
    | NetResult.notOk => false
    | NetResult.netError => true

/-- State after AuthManager.init returns: the persisted session record
still in storage, the in-memory currentUser, and the argument of each
notifyAuthStateChange call in order. -/
structure AuthResult where
  storage : Option Session
  currentUser : Option SessionUser
  notified : List (Option SessionUser)
deriving DecidableEq

/-- AuthManager.init given the stored session record (none when the
storage key is absent), the current time, and the behaviour of the
validation fetch. -/
def authInit (stored : Option Session) (now : Int) (net : NetResult) :
    AuthResult :=
  match stored with
  | none => ⟨none, none, [none]⟩
  | some s =>
    if validateSession s now net then ⟨some s, some s.user, [some s.user]⟩
    else ⟨none, none, [none]⟩

/-- A stored user record, including the plaintext password the login
scan compares against. -/
structure User where
  id : Nat
  username : String
  email : String
  password : String
  firstName : String
  lastName : String
  role : String
deriving DecidableEq

/-- The user summary placed in the session at login: exactly the six
fields id, username, email, firstName, lastName, role, and nothing
else (in particular not the password). -/
def sessionUserOf (u : User) : SessionUser :=
  ⟨u.id, u.username, u.email, u.firstName, u.lastName, u.role⟩

/-- AuthManager.login over the fetched user list: input presence check,
linear scan for a user whose username or email equals the identifier and
whose password equals the given password, then construction of the
session record that saveSession persists verbatim (ok result). The
expiry is 24 hours, in milliseconds, after the login time. -/
def login (users : List User) (identifier password : String) (now : Int) :
    Except String Session :=
  if identifier = ("") ∨ password = ("") then
    Except.error ("Username/email and password are required")
  else
    match users.find? (fun u =>
        (u.username == identifier || u.email == identifier) &&
          u.password == password) with
    | none => Except.error ("Invalid username/email or password")
    | some u =>
      Except.ok ⟨sessionUserOf u, now, now + 24 * 60 * 60 * 1000⟩

/-! ### Concrete fixtures used by the witness theorems -/

def demoUsers : List User :=
  [⟨1, ("admin"), ("admin@eventhub.com"), ("admin123"), ("Admin"),
    ("User"), ("admin")⟩]

def demoRoutes : List (String × Route) :=
  addRoute (addRoute [] ("/login") false none) ("/admin") true (some ("admin"))

def demoUser : SessionUser :=
  ⟨2, ("jdoe"), ("jdoe@mail.com"), ("John"), ("Doe"), ("user")⟩

def demo404Routes : List (String × Route) :=
  addRoute (addRoute [] ("/login") false none) ("*") false none


/-! ### Helper lemmas about the store operations -/

lemma getEventIn_ok_find (db : DB) (i : Nat) (ev : REvent)
    (h : getEventIn db i = Except.ok ev) :
    db.events.find? (fun e => e.id == i) = some ev := by
  unfold getEventIn at h
  split at h
  · rename_i e heq
    injection h with h1
    rw [h1] at heq
    exact heq
  · exact Except.noConfusion h

lemma find?_patch_map (l : List REvent) (i : Nat) (c : Int)
    (h : (l.find? (fun e => e.id == i)).isSome = true) :
    ((l.map (fun e => if e.id == i then
        (⟨e.id, e.title, e.capacity, c, e.status⟩ : REvent) else e)).find?
      (fun e => e.id == i)).map (fun e => e.registeredCount) = some c := by
  induction l with
  | nil => simp at h
  | cons hd tl ih =>
    by_cases hid : (hd.id == i) = true
    · simp [List.find?, hid]
    · have h' : (tl.find? (fun e => e.id == i)).isSome = true := by
        simpa [List.find?, hid] using h
      simpa [List.find?, hid] using ih h'

lemma eventCount_patch (db : DB) (i : Nat) (c : Int)
    (h : (db.events.find? (fun e => e.id == i)).isSome = true) :
    eventCount (patchEventCount db i c) i = some c := by
  simpa [eventCount, patchEventCount] using find?_patch_map db.events i c h

/-! ### Claim theorems: AuthManager -/

/-- C6: a persisted session whose expiresAt lies strictly in the past
when init runs is treated as absent: the stored record is removed from
storage, currentUser ends up null, and the observers are notified once
with null. -/
theorem auth_init_expired_session (s : Session) (now : Int) (net : NetResult)
    (h : s.expiresAt < now) :
    authInit (some s) now net = ⟨none, none, [none]⟩ := by
  simp [authInit, validateSession, h]

theorem auth_init_expired_session_witness :
    authInit (some ⟨⟨1, ("a"), ("a@b.c"), ("f"), ("l"), ("user")⟩, 0, 0⟩) 1
      NetResult.ok = ⟨none, none, [none]⟩ :=
  auth_init_expired_session ⟨⟨1, ("a"), ("a@b.c"), ("f"), ("l"), ("user")⟩, 0, 0⟩
    1 NetResult.ok (by decide)

/-- C7: for a non-expired session, a validation fetch that throws makes
validateSession report the session valid (fail open), so init keeps the
user logged in and the stored record intact; a fetch resolving with a
non-ok status makes validateSession report it invalid (fail closed), so
init clears the session. -/
theorem session_validation_trust_posture (s : Session) (now : Int)
    (h : ¬ s.expiresAt < now) :
    validateSession s now NetResult.netError = true ∧
    authInit (some s) now NetResult.netError =
      ⟨some s, some s.user, [some s.user]⟩ ∧
    validateSession s now NetResult.notOk = false ∧
    authInit (some s) now NetResult.notOk = ⟨none, none, [none]⟩ := by
  simp [authInit, validateSession, h]

theorem session_validation_trust_posture_witness :
    validateSession ⟨⟨1, ("a"), ("a@b.c"), ("f"), ("l"), ("user")⟩, 0, 5⟩ 1
        NetResult.netError = true ∧
    authInit (some ⟨⟨1, ("a"), ("a@b.c"), ("f"), ("l"), ("user")⟩, 0, 5⟩) 1
        NetResult.netError =
      ⟨some ⟨⟨1, ("a"), ("a@b.c"), ("f"), ("l"), ("user")⟩, 0, 5⟩,
        some ⟨1, ("a"), ("a@b.c"), ("f"), ("l"), ("user")⟩,
        [some ⟨1, ("a"), ("a@b.c"), ("f"), ("l"), ("user")⟩]⟩ ∧
    validateSession ⟨⟨1, ("a"), ("a@b.c"), ("f"), ("l"), ("user")⟩, 0, 5⟩ 1
        NetResult.notOk = false ∧
    authInit (some ⟨⟨1, ("a"), ("a@b.c"), ("f"), ("l"), ("user")⟩, 0, 5⟩) 1
        NetResult.notOk = ⟨none, none, [none]⟩ :=
  session_validation_trust_posture
    ⟨⟨1, ("a"), ("a@b.c"), ("f"), ("l"), ("user")⟩, 0, 5⟩ 1 (by decide)

/-- C8: every successful login persists a session whose user component
is built from exactly the six fields id, username, email, firstName,
lastName and role of the matched user record (the SessionUser type has
no password field, so the password can never be part of it), whose
loginTime is the login instant, and whose expiresAt is 24 hours (in
milliseconds) later. The ok value of login is precisely the record that
saveSession writes to storage. -/
theorem login_session_shape (users : List User) (identifier password : String)
    (now : Int) (s : Session)
    (h : login users identifier password now = Except.ok s) :
    ∃ u, users.find? (fun v =>
        (v.username == identifier || v.email == identifier) &&
          v.password == password) = some u ∧
      s = ⟨⟨u.id, u.username, u.email, u.firstName, u.lastName, u.role⟩,
        now, now + 24 * 60 * 60 * 1000⟩ := by
  unfold login at h
  split at h
  · exact Except.noConfusion h
  · split at h
    · exact Except.noConfusion h
    · rename_i u hfind
      injection h with h1
      exact ⟨u, hfind, h1.symm⟩

theorem login_session_shape_witness :
    ∃ u, demoUsers.find? (fun v =>
        (v.username == ("admin") || v.email == ("admin")) &&
          v.password == ("admin123")) = some u ∧
      (⟨⟨1, ("admin"), ("admin@eventhub.com"), ("Admin"), ("User"), ("admin")⟩,
          0, 86400000⟩ : Session) =
        ⟨⟨u.id, u.username, u.email, u.firstName, u.lastName, u.role⟩,
          0, 0 + 24 * 60 * 60 * 1000⟩ :=
  login_session_shape demoUsers ("admin") ("admin123") 0
    ⟨⟨1, ("admin"), ("admin@eventhub.com"), ("Admin"), ("User"), ("admin")⟩,
      0, 86400000⟩ (by rfl)

/-! ### Claim theorems: ApiService registration flows -/

/-- C2: with the event readable at its id and no prior registration of
the user for it, a registerForEvent call at registeredCount equal to or
above capacity fails with the event-full error; at or above capacity the
call can never succeed, whatever the registration table holds, so no
registration is created; and a call at registeredCount equal to
capacity minus one succeeds, creating a registration of that user for
that event and leaving the stored registeredCount exactly at capacity.
The duplicate-registration query runs before the capacity read, so a
duplicate produces its own error first; the second conjunct covers that
case. -/
theorem register_capacity_boundary :
    (∀ (db : DB) (u e rid : Nat) (now : String) (ev : REvent),
      getEventIn db e = Except.ok ev →
      ev.registeredCount ≥ ev.capacity →
      regsFor db u e = [] →
      registerForEvent db u e rid now = Except.error ("Event is full"))
    ∧ (∀ (db : DB) (u e rid : Nat) (now : String) (ev : REvent)
        (res : DB × RRegistration),
      getEventIn db e = Except.ok ev →
      ev.registeredCount ≥ ev.capacity →
      registerForEvent db u e rid now ≠ Except.ok res)
    ∧ (∀ (db : DB) (u e rid : Nat) (now : String) (ev : REvent),
      getEventIn db e = Except.ok ev →
      ev.registeredCount = ev.capacity - 1 →
      regsFor db u e = [] →
      ∃ db2 reg, registerForEvent db u e rid now = Except.ok (db2, reg) ∧
        eventCount db2 e = some ev.capacity ∧
        reg.userId = u ∧ reg.eventId = e) := by
  have h1 : ∀ (db : DB) (u e rid : Nat) (now : String) (ev : REvent),
      getEventIn db e = Except.ok ev →
      ev.registeredCount ≥ ev.capacity →
      regsFor db u e = [] →
      registerForEvent db u e rid now = Except.error ("Event is full") := by
    intro db u e rid now ev hev hfull hreg
    simp [registerForEvent, hreg, hev, hfull]
  refine ⟨h1, ?_, ?_⟩
  · intro db u e rid now ev res hev hfull heq
    rcases hcase : regsFor db u e with - | ⟨r, rs⟩
    · rw [h1 db u e rid now ev hev hfull hcase] at heq
      exact Except.noConfusion heq
    · rw [show registerForEvent db u e rid now =
          Except.error ("User is already registered for this event") by
        simp [registerForEvent, hcase]] at heq
      exact Except.noConfusion heq
  · intro db u e rid now ev hev hcap hreg
    have hfind : db.events.find? (fun x => x.id == e) = some ev :=
      getEventIn_ok_find db e ev hev
    have hnotfull : ¬ ev.registeredCount ≥ ev.capacity := by omega
    refine ⟨patchEventCount
        ⟨db.events, db.registrations ++ [⟨rid, u, e, now, ("confirmed")⟩]⟩ e
        (ev.registeredCount + 1),
      ⟨rid, u, e, now, ("confirmed")⟩, ?_, ?_, rfl, rfl⟩
    · simp [registerForEvent, hreg, hev, hnotfull, updateEvent, hfind]
    · have hpatched := eventCount_patch
        ⟨db.events, db.registrations ++
          [(⟨rid, u, e, now, ("confirmed")⟩ : RRegistration)]⟩ e
        (ev.registeredCount + 1) (by simp [hfind])
      rw [hpatched]
      congr 1
      omega

theorem register_capacity_boundary_witness :
    registerForEvent ⟨[⟨5, ("t"), 2, 2, ("active")⟩], []⟩ 9 5 100 ("now") =
      Except.error ("Event is full") ∧
    registerForEvent ⟨[⟨5, ("t"), 2, 3, ("active")⟩], []⟩ 9 5 100 ("now") ≠
      Except.ok (⟨[], []⟩, ⟨100, 9, 5, ("now"), ("confirmed")⟩) ∧
    ∃ db2 reg,
      registerForEvent ⟨[⟨7, ("t"), 3, 2, ("active")⟩], []⟩ 9 7 100 ("now") =
        Except.ok (db2, reg) ∧
      eventCount db2 7 = some 3 ∧ reg.userId = 9 ∧ reg.eventId = 7 :=
  ⟨register_capacity_boundary.1 ⟨[⟨5, ("t"), 2, 2, ("active")⟩], []⟩ 9 5 100
      ("now") ⟨5, ("t"), 2, 2, ("active")⟩ (by rfl) (by decide) (by rfl),
   register_capacity_boundary.2.1 ⟨[⟨5, ("t"), 2, 3, ("active")⟩], []⟩ 9 5 100
      ("now") ⟨5, ("t"), 2, 3, ("active")⟩
      (⟨[], []⟩, ⟨100, 9, 5, ("now"), ("confirmed")⟩) (by rfl) (by decide),
   register_capacity_boundary.2.2 ⟨[⟨7, ("t"), 3, 2, ("active")⟩], []⟩ 9 7 100
      ("now") ⟨7, ("t"), 3, 2, ("active")⟩ (by rfl) (by decide) (by rfl)⟩

/-- C3: under sequential execution, a successful registerForEvent call
leaves exactly one registration row for the user and event, so an
immediately following call for the same pair fails with the
duplicate-registration error. The duplicate check is the first step of
the call and the thrown error precedes every write, so the failing
second call creates no row and performs no count update: an error
result of the model carries no state change. -/
theorem duplicate_registration_second_call (db : DB) (u e rid : Nat)
    (now : String) (rid2 : Nat) (now2 : String) (db1 : DB)
    (reg : RRegistration)
    (h : registerForEvent db u e rid now = Except.ok (db1, reg)) :
    registerForEvent db1 u e rid2 now2 =
      Except.error ("User is already registered for this event") ∧
    (regsFor db1 u e).length = 1 := by
  rcases hcase : regsFor db u e with - | ⟨r, rs⟩
  case cons => simp [registerForEvent, hcase] at h
  cases hev : getEventIn db e with
  | error msg => simp [registerForEvent, hcase, hev] at h
  | ok ev =>
    by_cases hfull : ev.registeredCount ≥ ev.capacity
    · simp [registerForEvent, hcase, hev, hfull] at h
    · have hfind : db.events.find? (fun x => x.id == e) = some ev :=
        getEventIn_ok_find db e ev hev
      simp [registerForEvent, hcase, hev, hfull, updateEvent, hfind] at h
      obtain ⟨hdb1, hreg⟩ := h
      have hfilter : db.registrations.filter
          (fun r => r.userId == u && r.eventId == e) = [] := by
        simpa [regsFor] using hcase
      have hr1 : regsFor db1 u e = [⟨rid, u, e, now, ("confirmed")⟩] := by
        rw [← hdb1]
        simp [regsFor, patchEventCount, List.filter_append, hfilter]
      constructor
      · simp [registerForEvent, hr1]
      · rw [hr1]
        rfl

theorem duplicate_registration_second_call_witness :
    registerForEvent ⟨[⟨7, ("t"), 3, 3, ("active")⟩],
        [⟨100, 9, 7, ("now"), ("confirmed")⟩]⟩ 9 7 101 ("later") =
      Except.error ("User is already registered for this event") ∧
    (regsFor ⟨[⟨7, ("t"), 3, 3, ("active")⟩],
        [⟨100, 9, 7, ("now"), ("confirmed")⟩]⟩ 9 7).length = 1 :=
  duplicate_registration_second_call ⟨[⟨7, ("t"), 3, 2, ("active")⟩], []⟩ 9 7
    100 ("now") 101 ("later")
    ⟨[⟨7, ("t"), 3, 3, ("active")⟩], [⟨100, 9, 7, ("now"), ("confirmed")⟩]⟩
    ⟨100, 9, 7, ("now"), ("confirmed")⟩ (by rfl)

/-- C9: a cancelRegistration call that finds a matching registration and
succeeds leaves the stored registeredCount of the event at the maximum
of zero and its previous value minus one; in particular the stored count
is never negative afterwards, even when it was already zero before the
cancellation. -/
theorem cancel_count_clamped (db : DB) (u e : Nat) (c : Int) (db2 : DB)
    (hc : eventCount db e = some c)
    (h : cancelRegistration db u e = Except.ok db2) :
    eventCount db2 e = some (max 0 (c - 1)) ∧
    ∀ c2, eventCount db2 e = some c2 → 0 ≤ c2 := by
  rcases hcase : regsFor db u e with - | ⟨r, rs⟩
  case nil => simp [cancelRegistration, hcase] at h
  obtain ⟨e0, hfind0, hc0⟩ :
      ∃ e0, db.events.find? (fun x => x.id == e) = some e0 ∧
        e0.registeredCount = c := by
    unfold eventCount at hc
    cases hfind : db.events.find? (fun x => x.id == e) with
    | none => rw [hfind] at hc; exact Option.noConfusion hc
    | some e0 =>
      rw [hfind] at hc
      injection hc with hc
      exact ⟨e0, rfl, hc⟩
  have hev : getEventIn
      ⟨db.events, db.registrations.filter (fun x => !(x.id == r.id))⟩ e =
      Except.ok e0 := by
    simp [getEventIn, hfind0]
  simp [cancelRegistration, hcase, hev, updateEvent, hfind0] at h
  have hcount := eventCount_patch
    ⟨db.events, db.registrations.filter (fun x => !(x.id == r.id))⟩ e
    (max 0 (e0.registeredCount - 1)) (by simp [hfind0])
  rw [h] at hcount
  rw [hc0] at hcount
  refine ⟨hcount, ?_⟩
  intro c2 hc2
  rw [hcount] at hc2
  injection hc2 with hc2
  omega

theorem cancel_count_clamped_witness :
    eventCount ⟨[⟨5, ("t"), 2, 0, ("active")⟩], []⟩ 5 = some (max 0 (0 - 1)) ∧
    ∀ c2, eventCount ⟨[⟨5, ("t"), 2, 0, ("active")⟩], []⟩ 5 = some c2 →
      0 ≤ c2 :=
  cancel_count_clamped
    ⟨[⟨5, ("t"), 2, 0, ("active")⟩], [⟨100, 9, 5, ("now"), ("confirmed")⟩]⟩
    9 5 0 ⟨[⟨5, ("t"), 2, 0, ("active")⟩], []⟩ (by rfl) (by rfl)

/-! ### Claim theorems: Router -/

/-- C1: when dispatch resolves a route that requires authentication and
no user is logged in, the outcome is a navigation to the /login path
(the handler is not invoked, since the dispatch outcome is the redirect
and nothing else); when the resolved route carries a required role (a
non-null, non-empty string, the truthy values of the source check) and
the logged-in user has a different role, the outcome is the
access-denied view, with no navigation and no handler call. The first
conjunct holds whatever requiredRole is, which is the authentication
check running strictly before the role check. -/
theorem route_guard_order (routes : List (String × Route)) (path : String)
    (user : Option SessionUser) (route : Route)
    (hfind : findMatchingRoute routes path = some route) :
    (route.requiresAuth = true → user = none →
      handleRoute routes path user = DispatchResult.redirected ("/login"))
    ∧ (∀ rr u, route.requiredRole = some rr → rr ≠ ("") → user = some u →
        u.role ≠ rr →
        handleRoute routes path user = DispatchResult.accessDenied) := by
  constructor
  · intro hauth huser
    subst huser
    simp [handleRoute, hfind, hauth, isAuthenticated]
  · intro rr u hrr hne huser hrole
    subst huser
    simp [handleRoute, hfind, isAuthenticated, roleGateFails, hrr, hne,
      hasRequiredRole, hrole]

theorem route_guard_order_witness :
    handleRoute demoRoutes ("/admin") none =
      DispatchResult.redirected ("/login") ∧
    handleRoute demoRoutes ("/admin") (some demoUser) =
      DispatchResult.accessDenied :=
  ⟨(route_guard_order demoRoutes ("/admin") none
      (compileRoute ("/admin") true (some ("admin"))) (by rfl)).1 rfl rfl,
   (route_guard_order demoRoutes ("/admin") (some demoUser)
      (compileRoute ("/admin") true (some ("admin"))) (by rfl)).2
     ("admin") demoUser rfl (by decide) rfl (by decide)⟩

/-- C4: whenever the compiled pattern of a route matches a path,
extractParams binds the stored parameter names, in order, to the
captured groups at the corresponding positions (the zip of the name
list with the group list); in particular a router holding the route
/events/:id dispatches /events/42 by invoking its handler with the
single binding of id to 42. -/
theorem route_param_extraction :
    (∀ (path : String) (r : Route) (gs : List (List Char)),
      rmatch r.pattern path.toList = some gs →
      extractParams path r = r.paramNames.zip (gs.map String.mk))
    ∧ handleRoute (addRoute [] ("/events/:id") false none) ("/events/42")
        none = DispatchResult.invoked [(("id"), ("42"))] := by
  constructor
  · intro path r gs h
    unfold extractParams
    rw [h]
  · decide

theorem route_param_extraction_witness :
    extractParams ("/events/42") (compileRoute ("/events/:id") false none) =
      [(("id"), ("42"))] :=
  (route_param_extraction.1 ("/events/42")
    (compileRoute ("/events/:id") false none)
    [String.toList ("42")] (by rfl)).trans (by decide)

/-- C5: route resolution scans the registered routes in insertion
order, skips the entry stored under the asterisk key, and returns the
first remaining route whose compiled pattern matches the path (the
find-first over the filtered list); when no route matches, dispatch
invokes the handler registered under the asterisk key if that entry
exists, and does nothing at all otherwise. -/
theorem route_resolution_order :
    (∀ (routes : List (String × Route)) (path : String),
      findMatchingRoute routes path =
        ((routes.filter (fun p => p.1 != ("*"))).find?
          (fun p => (rmatch p.2.pattern path.toList).isSome)).map
          (fun p => p.2))
    ∧ (∀ (routes : List (String × Route)) (path : String)
        (user : Option SessionUser) (r : Route),
      findMatchingRoute routes path = none →
      lookupRoute routes ("*") = some r →
      handleRoute routes path user = DispatchResult.wildcardInvoked)
    ∧ (∀ (routes : List (String × Route)) (path : String)
        (user : Option SessionUser),
      findMatchingRoute routes path = none →
      lookupRoute routes ("*") = none →
      handleRoute routes path user = DispatchResult.noOp) := by
  refine ⟨?_, ?_, ?_⟩
  · intro routes path
    induction routes with
    | nil => simp [findMatchingRoute]
    | cons hd tl ih =>
      obtain ⟨k, r⟩ := hd
      by_cases hk : k = ("*")
      · subst hk
        simpa [findMatchingRoute] using ih
      · by_cases hm : (rmatch r.pattern path.data).isSome
        · simp [findMatchingRoute, hk, hm, String.toList]
        · simpa [findMatchingRoute, hk, hm, String.toList] using ih
  · intro routes path user r h1 h2
    simp [handleRoute, h1, h2]
  · intro routes path user h1 h2
    simp [handleRoute, h1, h2]

theorem route_resolution_order_witness :
    handleRoute demo404Routes ("/zzz") none =
      DispatchResult.wildcardInvoked ∧
    handleRoute demoRoutes ("/zzz") none = DispatchResult.noOp :=
  ⟨route_resolution_order.2.1 demo404Routes ("/zzz") none
      (compileRoute ("*") false none) (by rfl) (by rfl),
   route_resolution_order.2.2 demoRoutes ("/zzz") none (by rfl) (by rfl)⟩

end EventHub
